import Mathlib

/-!
Shallow embedding of the financial-domain module
(`src/financial/data_model.py` and `src/financial/tools.py`).

Modelling conventions:
- Python `dict[str, T]` becomes an association list `StoreMap T` with
  first-match lookup; `d[k] = v` is `StoreMap.setKey` (replace in place,
  else append, matching insertion-order dict semantics), and an in-place
  field mutation of the object stored under a key (`d[k].f = x`, which in
  Python happens through an aliased reference to the stored object) is
  `StoreMap.mutKey`.
- Python `float` balances/amounts are modelled as exact rationals `Rat`,
  following spec section 3 which treats balances as decimal amounts.
- `datetime.datetime.now()` is an explicit `now : Nat` tick parameter;
  `uuid.uuid4()` is an explicit `freshId : String` parameter (the code
  relies on uuid4 uniqueness, so fresh ids carry a freshness hypothesis
  where a theorem needs it).
- Each tool is a function `FinancialDB → Except FinError A × FinancialDB`:
  the returned store reflects every mutation performed up to the point
  where the Python code returns or raises, so "the store is unchanged on
  failure" is a genuine theorem about statement order, not a modelling
  artifact.
- pydantic `@validator` hooks run at construction only (the module does
  not set `validate_assignment`), so construction goes through `Except`-
  returning makers while field reassignment is unvalidated, exactly as in
  the source.
-/

namespace Financial

/-- Association-list store keyed by strings, standing for a Python dict. -/
abbrev StoreMap (α : Type) : Type := List (String × α)

namespace StoreMap

/-- First-match lookup, `d[k]` / `k in d`. -/
def find? {α : Type} (m : StoreMap α) (k : String) : Option α :=
  match m with
  | [] => none
  | (k', v) :: rest => if k' = k then some v else find? rest k

/-- Membership test `k in d`. -/
def containsKey {α : Type} (m : StoreMap α) (k : String) : Bool :=
  match m with
  | [] => false
  | (k', _) :: rest => if k' = k then true else containsKey rest k

/-- In-place mutation of the entity stored under `k` (Python mutates the
object through an aliased reference that lives in the dict). -/
def mutKey {α : Type} (m : StoreMap α) (k : String) (f : α → α) : StoreMap α :=
  match m with
  | [] => []
  | (k', v) :: rest =>
    if k' = k then (k', f v) :: mutKey rest k f
    else (k', v) :: mutKey rest k f

/-- Dict assignment `d[k] = v`: replace in place when the key is present,
append otherwise. -/
def setKey {α : Type} (m : StoreMap α) (k : String) (v : α) : StoreMap α :=
  if m.containsKey k then m.mutKey k (fun _ => v) else m ++ [(k, v)]

/-- Number of entries, `len(d)`. -/
def size {α : Type} (m : StoreMap α) : Nat := m.length

end StoreMap

/-- Transaction status literal (`data_model.py`, `Transaction.status`). -/
inductive TxStatus where
  | pending
  | cleared
  | rejected
  | flagged
  deriving Repr, DecidableEq

/-- Account status literal (`data_model.py`, `Account.status`). -/
inductive AccountStatus where
  | active
  | suspended
  | closed
  deriving Repr, DecidableEq

/-- Account type literal (`data_model.py`, `Account.account_type`). -/
inductive AccountType where
  | checking
  | savings
  | investment
  | loan
  deriving Repr, DecidableEq

/-- Model of `Customer` from `data_model.py`. -/
structure Customer where
  customer_id : String
  name : String
  address : String
  email : String
  phone : String
  created_at : Nat
  deriving Repr, DecidableEq

/-- Model of `Account` from `data_model.py`. -/
structure Account where
  account_id : String
  customer_id : String
  account_type : AccountType
  balance : Rat
  currency : String
  created_at : Nat
  status : AccountStatus
  deriving Repr, DecidableEq

/-- Model of `SwiftMessage` from `data_model.py`. -/
structure SwiftMessage where
  message_id : String
  sender_bic : String
  receiver_bic : String
  message_type : String
  content : String
  created_at : Nat
  processed : Bool
  deriving Repr, DecidableEq

/-- Model of `Transaction` from `data_model.py`. -/
structure Transaction where
  transaction_id : String
  from_account_id : String
  to_account_id : String
  amount : Rat
  currency : String
  status : TxStatus
  swift_message_id : Option String
  fraud_score : Option Rat
  created_at : Nat
  processed_at : Option Nat
  description : Option String
  deriving Repr, DecidableEq

/-- Error kinds raised by the module (all `ValueError` in Python; the spec
classifies them as NotFound / InvalidState / InsufficientFunds /
InvalidArgument, section 7). -/
inductive FinError where
  | notFound (entity : String) (id : String)
  | invalidState (id : String)
  | insufficientFunds
  | invalidArgument (msg : String)
  deriving Repr, DecidableEq

/-- Model of `FinancialDB` from `data_model.py`: the four identifier-keyed mappings. -/
structure FinancialDB where
  customers : StoreMap Customer
  accounts : StoreMap Account
  transactions : StoreMap Transaction
  swift_messages : StoreMap SwiftMessage
  deriving Repr, DecidableEq

/-- Statistics record returned by `FinancialDB.get_statistics`. -/
structure Statistics where
  num_customers : Nat
  num_accounts : Nat
  num_transactions : Nat
  num_swift_messages : Nat
  deriving Repr, DecidableEq

/-- Embeds `FinancialDB.get_statistics`: counts of the four mappings, a pure read. -/
def FinancialDB.get_statistics (db : FinancialDB) : Statistics :=
  { num_customers := db.customers.size
  , num_accounts := db.accounts.size
  , num_transactions := db.transactions.size
  , num_swift_messages := db.swift_messages.size }

/-- pydantic constructor of `Transaction` with its `@validator` hooks
(`validate_amount`: amount must be strictly positive; `validate_fraud_score`:
score in [0,1] when present). -/
def mkTransaction (transaction_id from_account_id to_account_id : String)
    (amount : Rat) (currency : String) (status : TxStatus)
    (swift_message_id : Option String) (fraud_score : Option Rat)
    (created_at : Nat) (processed_at : Option Nat)
    (description : Option String) : Except FinError Transaction :=
  if amount ≤ 0 then
    .error (.invalidArgument "Transaction amount must be positive")
  else if fraud_score.any (fun s => ¬(0 ≤ s ∧ s ≤ 1)) then
    .error (.invalidArgument "Fraud score must be between 0.0 and 1.0")
  else
    .ok { transaction_id, from_account_id, to_account_id, amount, currency,
          status, swift_message_id, fraud_score, created_at, processed_at,
          description }

/-- Result of a tool call: the returned value or the raised error, paired
with the store as of the return/raise point. -/
def ToolRes (α : Type) : Type := Except FinError α × FinancialDB

/-- Embeds `FinancialTools._get_customer`. -/
def getCustomerInternal (db : FinancialDB) (customer_id : String) :
    Except FinError Customer :=
  match db.customers.find? customer_id with
  | none => .error (.notFound "Customer" customer_id)
  | some c => .ok c

/-- Embeds `FinancialTools._get_account`. -/
def getAccountInternal (db : FinancialDB) (account_id : String) :
    Except FinError Account :=
  match db.accounts.find? account_id with
  | none => .error (.notFound "Account" account_id)
  | some a => .ok a

/-- Embeds `FinancialTools._get_transaction`. -/
def getTransactionInternal (db : FinancialDB) (transaction_id : String) :
    Except FinError Transaction :=
  match db.transactions.find? transaction_id with
  | none => .error (.notFound "Transaction" transaction_id)
  | some t => .ok t

/-- Embeds `get_customer_details` (READ). -/
def get_customer_details (customer_id : String) (db : FinancialDB) :
    ToolRes Customer :=
  (getCustomerInternal db customer_id, db)

/-- Embeds `get_account_balance` (READ). -/
def get_account_balance (account_id : String) (db : FinancialDB) :
    ToolRes Rat :=
  ((getAccountInternal db account_id).map Account.balance, db)

/-- Embeds `create_transaction` (WRITE): resolve both accounts, check funds,
construct a pending transaction (pydantic-validated), insert it. -/
def create_transaction (freshId : String) (now : Nat)
    (from_account_id to_account_id : String) (amount : Rat)
    (currency : String) (db : FinancialDB) : ToolRes Transaction :=
  match getAccountInternal db from_account_id with
  | .error e => (.error e, db)
  | .ok from_account =>
    match getAccountInternal db to_account_id with
    | .error e => (.error e, db)
    | .ok _to_account =>
      if from_account.balance < amount then
        (.error .insufficientFunds, db)
      else
        match mkTransaction freshId from_account_id to_account_id amount
            currency .pending none none now none none with
        | .error e => (.error e, db)
        | .ok transaction =>
          (.ok transaction,
           { db with transactions :=
               db.transactions.setKey freshId transaction })

/-- Embeds `clear_transaction` (WRITE): require pending status, resolve both
accounts, then mutate the two stored account objects in place (the source
decrements then increments through aliased references, so a self-transfer
cancels), set status/processed timestamp, and re-store the account objects
(a no-op rebinding in the source, lines 129-130). -/
def clear_transaction (now : Nat) (transaction_id : String)
    (db : FinancialDB) : ToolRes Transaction :=
  match getTransactionInternal db transaction_id with
  | .error e => (.error e, db)
  | .ok transaction =>
    if transaction.status ≠ .pending then
      (.error (.invalidState transaction_id), db)
    else
      match getAccountInternal db transaction.from_account_id with
      | .error e => (.error e, db)
      | .ok _from_account =>
        match getAccountInternal db transaction.to_account_id with
        | .error e => (.error e, db)
        | .ok _to_account =>
          let accounts1 := db.accounts.mutKey transaction.from_account_id
            (fun a => { a with balance := a.balance - transaction.amount })
          let accounts2 := accounts1.mutKey transaction.to_account_id
            (fun a => { a with balance := a.balance + transaction.amount })
          let transactions1 := db.transactions.mutKey transaction_id
            (fun t => { t with status := .cleared, processed_at := some now })
          (.ok { transaction with status := .cleared, processed_at := some now },
           { db with accounts := accounts2, transactions := transactions1 })

/-- Embeds `flag_transaction_for_fraud` (WRITE): resolve the transaction,
unconditionally set status to flagged. -/
def flag_transaction_for_fraud (transaction_id : String)
    (db : FinancialDB) : ToolRes Transaction :=
  match getTransactionInternal db transaction_id with
  | .error e => (.error e, db)
  | .ok transaction =>
    let transactions1 := db.transactions.mutKey transaction_id
      (fun t => { t with status := .flagged })
    (.ok { transaction with status := .flagged },
     { db with transactions := transactions1 })

/-- Embeds `get_transaction_status` (READ). -/
def get_transaction_status (transaction_id : String) (db : FinancialDB) :
    ToolRes TxStatus :=
  ((getTransactionInternal db transaction_id).map Transaction.status, db)

/-- Embeds `get_customer_accounts` (READ): resolve the customer, then linear scan. -/
def get_customer_accounts (customer_id : String) (db : FinancialDB) :
    ToolRes (List Account) :=
  ((getCustomerInternal db customer_id).map (fun _ =>
    (db.accounts.map Prod.snd).filter
      (fun a => a.customer_id = customer_id)), db)

/-- Embeds `get_account_transactions` (READ): resolve the account, then linear scan. -/
def get_account_transactions (account_id : String) (db : FinancialDB) :
    ToolRes (List Transaction) :=
  ((getAccountInternal db account_id).map (fun _ =>
    (db.transactions.map Prod.snd).filter
      (fun t => t.from_account_id = account_id ∨
                t.to_account_id = account_id)), db)

/-- Embeds `create_swift_message` (WRITE): pure construction and insertion, no
validation; `processed` defaults to false. -/
def create_swift_message (freshId : String) (now : Nat)
    (sender_bic receiver_bic message_type content : String)
    (db : FinancialDB) : ToolRes SwiftMessage :=
  let swift_message : SwiftMessage :=
    { message_id := freshId, sender_bic, receiver_bic, message_type,
      content, created_at := now, processed := false }
  (.ok swift_message,
   { db with swift_messages :=
       db.swift_messages.setKey freshId swift_message })

/-- Embeds `get_swift_message` (READ). -/
def get_swift_message (message_id : String) (db : FinancialDB) :
    ToolRes SwiftMessage :=
  (match db.swift_messages.find? message_id with
   | none => .error (.notFound "SWIFT message" message_id)
   | some m => .ok m, db)

/-- Embeds `link_swift_message_to_transaction` (WRITE): resolve the transaction
then the message, set the transaction's `swift_message_id` in place; the
message is not mutated. -/
def link_swift_message_to_transaction (transaction_id message_id : String)
    (db : FinancialDB) : ToolRes Transaction :=
  match getTransactionInternal db transaction_id with
  | .error e => (.error e, db)
  | .ok transaction =>
    match (get_swift_message message_id db).1 with
    | .error e => (.error e, db)
    | .ok _swift_message =>
      let transactions1 := db.transactions.mutKey transaction_id
        (fun t => { t with swift_message_id := some message_id })
      (.ok { transaction with swift_message_id := some message_id },
       { db with transactions := transactions1 })

/-- Embeds `set_fraud_score` (WRITE): validate the range first (before resolving
the transaction, as in the source), then set the score in place. -/
def set_fraud_score (transaction_id : String) (fraud_score : Rat)
    (db : FinancialDB) : ToolRes Transaction :=
  if ¬(0 ≤ fraud_score ∧ fraud_score ≤ 1) then
    (.error (.invalidArgument "Fraud score must be between 0.0 and 1.0"), db)
  else
    match getTransactionInternal db transaction_id with
    | .error e => (.error e, db)
    | .ok transaction =>
      let transactions1 := db.transactions.mutKey transaction_id
        (fun t => { t with fraud_score := some fraud_score })
      (.ok { transaction with fraud_score := some fraud_score },
       { db with transactions := transactions1 })

/-- Embeds `get_statistics` exposed as a read over the store. -/
def get_statistics_tool (db : FinancialDB) : ToolRes Statistics :=
  (.ok db.get_statistics, db)

/-- Sum type of every tool invocation, with its arguments (fresh uuids and
clock readings made explicit). -/
inductive Op where
  | createTransaction (freshId : String) (now : Nat)
      (from_account_id to_account_id : String) (amount : Rat)
      (currency : String)
  | clearTransaction (now : Nat) (transaction_id : String)
  | flagTransactionForFraud (transaction_id : String)
  | setFraudScore (transaction_id : String) (fraud_score : Rat)
  | linkSwiftMessageToTransaction (transaction_id message_id : String)
  | createSwiftMessage (freshId : String) (now : Nat)
      (sender_bic receiver_bic message_type content : String)
  | getCustomerDetails (customer_id : String)
  | getAccountBalance (account_id : String)
  | getTransactionStatus (transaction_id : String)
  | getCustomerAccounts (customer_id : String)
  | getAccountTransactions (account_id : String)
  | getSwiftMessage (message_id : String)
  | getStatistics
  deriving Repr, DecidableEq

/-- Whether an invocation succeeded, and the store it leaves behind. -/
def applyOp (op : Op) (db : FinancialDB) : Bool × FinancialDB :=
  match op with
  | .createTransaction fid now f t a c =>
      let r := create_transaction fid now f t a c db
      (r.1.toBool, r.2)
  | .clearTransaction now tid =>
      let r := clear_transaction now tid db
      (r.1.toBool, r.2)
  | .flagTransactionForFraud tid =>
      let r := flag_transaction_for_fraud tid db
      (r.1.toBool, r.2)
  | .setFraudScore tid s =>
      let r := set_fraud_score tid s db
      (r.1.toBool, r.2)
  | .linkSwiftMessageToTransaction tid mid =>
      let r := link_swift_message_to_transaction tid mid db
      (r.1.toBool, r.2)
  | .createSwiftMessage fid now sb rb mt ct =>
      let r := create_swift_message fid now sb rb mt ct db
      (r.1.toBool, r.2)
  | .getCustomerDetails cid =>
      let r := get_customer_details cid db
      (r.1.toBool, r.2)
  | .getAccountBalance aid =>
      let r := get_account_balance aid db
      (r.1.toBool, r.2)
  | .getTransactionStatus tid =>
      let r := get_transaction_status tid db
      (r.1.toBool, r.2)
  | .getCustomerAccounts cid =>
      let r := get_customer_accounts cid db
      (r.1.toBool, r.2)
  | .getAccountTransactions aid =>
      let r := get_account_transactions aid db
      (r.1.toBool, r.2)
  | .getSwiftMessage mid =>
      let r := get_swift_message mid db
      (r.1.toBool, r.2)
  | .getStatistics =>
      let r := get_statistics_tool db
      (r.1.toBool, r.2)

/-- Running a sequence of invocations left to right, keeping the store each
leaves (a failed call leaves its store and the run continues, as each tool
error is terminal only for that call). -/
def runOps (ops : List Op) (db : FinancialDB) : FinancialDB :=
  match ops with
  | [] => db
  | op :: rest => runOps rest (applyOp op db).2

/-- Every account balance in the store is non-negative. -/
def NonNegBalances (db : FinancialDB) : Prop :=
  ∀ k a, db.accounts.find? k = some a → 0 ≤ a.balance

/-- Every transaction in the store has a strictly positive amount (the
`validate_amount` invariant of the data model, assumed of the loaded
snapshot per spec section 3). -/
def PositiveAmounts (db : FinancialDB) : Prop :=
  ∀ k t, db.transactions.find? k = some t → 0 < t.amount

end Financial

namespace Financial.StoreMap

theorem find_mutKey_self {α : Type} (m : StoreMap α) (k : String)
    (f : α → α) : (m.mutKey k f).find? k = (m.find? k).map f := by
  induction m with
  | nil => rfl
  | cons p rest ih =>
    obtain ⟨k0, v0⟩ := p
    by_cases h : k0 = k
    · subst h
      simp [mutKey, find?]
    · simp [mutKey, find?, h] at ih ⊢
      exact ih

theorem find_mutKey_other {α : Type} (m : StoreMap α) (k k' : String)
    (f : α → α) (hne : k ≠ k') : (m.mutKey k f).find? k' = m.find? k' := by
  induction m with
  | nil => rfl
  | cons p rest ih =>
    obtain ⟨k0, v0⟩ := p
    by_cases h : k0 = k
    · subst h
      simp [mutKey, find?, hne] at ih ⊢
      exact ih
    · by_cases h' : k0 = k'
      · subst h'
        simp [mutKey, find?, h]
      · simp [mutKey, find?, h, h'] at ih ⊢
        exact ih

theorem mutKey_mutKey {α : Type} (m : StoreMap α) (k : String)
    (f g : α → α) : (m.mutKey k f).mutKey k g = m.mutKey k (g ∘ f) := by
  induction m with
  | nil => rfl
  | cons p rest ih =>
    obtain ⟨k0, v0⟩ := p
    by_cases h : k0 = k
    · subst h
      simp [mutKey] at ih ⊢
      exact ih
    · simp [mutKey, h] at ih ⊢
      exact ih

theorem mutKey_congr {α : Type} (m : StoreMap α) (k : String)
    (f g : α → α) (h : ∀ a, f a = g a) : m.mutKey k f = m.mutKey k g := by
  induction m with
  | nil => rfl
  | cons p rest ih =>
    obtain ⟨k0, v0⟩ := p
    by_cases hp : k0 = k
    · subst hp
      simp [mutKey] at ih ⊢
      exact ⟨h v0, ih⟩
    · simp [mutKey, hp] at ih ⊢
      exact ih

theorem find_append_single {α : Type} (m : StoreMap α) (k k' : String)
    (v : α) (hne : k ≠ k') : find? (m ++ [(k, v)]) k' = m.find? k' := by
  induction m with
  | nil => simp [find?, hne]
  | cons p rest ih =>
    obtain ⟨k0, v0⟩ := p
    by_cases h : k0 = k'
    · subst h
      simp [find?]
    · simp [find?, h] at ih ⊢
      exact ih

theorem containsKey_iff_find {α : Type} (m : StoreMap α) (k : String) :
    m.containsKey k = true ↔ ∃ v, m.find? k = some v := by
  induction m with
  | nil => simp [containsKey, find?]
  | cons p rest ih =>
    obtain ⟨k0, v0⟩ := p
    by_cases h : k0 = k
    · subst h
      simp [containsKey, find?]
    · simp [containsKey, find?, h, ih]

theorem find_setKey_self {α : Type} (m : StoreMap α) (k : String) (v : α) :
    (m.setKey k v).find? k = some v := by
  by_cases hc : m.containsKey k
  · obtain ⟨w, hw⟩ := (containsKey_iff_find m k).mp hc
    simp [setKey, hc, find_mutKey_self, hw]
  · have hnone : m.find? k = none := by
      rcases h : m.find? k with _ | w
      · rfl
      · exact absurd ((containsKey_iff_find m k).mpr ⟨w, h⟩) hc
    simp [setKey, hc]
    induction m with
    | nil => simp [find?]
    | cons p rest ih =>
      obtain ⟨k0, v0⟩ := p
      by_cases h : k0 = k
      · subst h
        simp [find?] at hnone
      · simp [find?, h] at hnone ⊢
        exact ih (by simp [containsKey, h] at hc ⊢; exact hc) hnone

theorem find_setKey_other {α : Type} (m : StoreMap α) (k k' : String)
    (v : α) (hne : k ≠ k') : (m.setKey k v).find? k' = m.find? k' := by
  by_cases hc : m.containsKey k
  · simp [setKey, hc, find_mutKey_other _ _ _ _ hne]
  · simp [setKey, hc, find_append_single _ _ _ _ hne]

end Financial.StoreMap

namespace Financial

/-- Fixture mirroring the test-suite setup (`test_tools_financial.py`). -/
def exCustomer1 : Customer :=
  { customer_id := "cust_1", name := "John Doe", address := "123 Main St",
    email := "john@example.com", phone := "555-0123", created_at := 0 }

/-- Fixture account `acc_1` with balance 1000 USD. -/
def exAccount1 : Account :=
  { account_id := "acc_1", customer_id := "cust_1",
    account_type := .checking, balance := 1000, currency := "USD",
    created_at := 0, status := .active }

/-- Fixture account `acc_2` with balance 500 USD. -/
def exAccount2 : Account :=
  { account_id := "acc_2", customer_id := "cust_2",
    account_type := .savings, balance := 500, currency := "USD",
    created_at := 0, status := .active }

/-- Fixture store with the two accounts and no transactions. -/
def exDB : FinancialDB :=
  { customers := [("cust_1", exCustomer1)]
  , accounts := [("acc_1", exAccount1), ("acc_2", exAccount2)]
  , transactions := []
  , swift_messages := [] }

/-- Fixture pending transaction `acc_1` to `acc_2`, amount 100. -/
def exTxPending : Transaction :=
  { transaction_id := "tx_1", from_account_id := "acc_1",
    to_account_id := "acc_2", amount := 100, currency := "USD",
    status := .pending, swift_message_id := none, fraud_score := none,
    created_at := 1, processed_at := none, description := none }

/-- Fixture store holding the pending transaction. -/
def exPendingDB : FinancialDB :=
  { exDB with transactions := [("tx_1", exTxPending)] }

/-- Fixture cleared transaction. -/
def exTxCleared : Transaction :=
  { exTxPending with status := .cleared, processed_at := some 2 }

/-- Fixture store holding an already-cleared transaction. -/
def exClearedDB : FinancialDB :=
  { exDB with transactions := [("tx_1", exTxCleared)] }

/-- Fixture pending self-transfer: source and destination are both `acc_1`. -/
def exTxSelf : Transaction :=
  { transaction_id := "tx_s", from_account_id := "acc_1",
    to_account_id := "acc_1", amount := 100, currency := "USD",
    status := .pending, swift_message_id := none, fraud_score := none,
    created_at := 1, processed_at := none, description := none }

/-- Fixture store holding the pending self-transfer. -/
def exSelfDB : FinancialDB :=
  { exDB with transactions := [("tx_s", exTxSelf)] }

/-- Fixture SWIFT message. -/
def exMsg1 : SwiftMessage :=
  { message_id := "msg_1", sender_bic := "BANKUS33",
    receiver_bic := "BANKDE55", message_type := "MT103",
    content := "payment", created_at := 0, processed := false }

/-- Fixture store holding the pending transaction and a SWIFT message. -/
def exLinkDB : FinancialDB :=
  { exPendingDB with swift_messages := [("msg_1", exMsg1)] }

/-- Case analysis of `clear_transaction`: either it fails and hands back
the store it received, or the resolved transaction was pending and the
store differs exactly by the two in-place balance mutations and the
status/timestamp mutation. -/
theorem clear_transaction_cases (now : Nat) (tid : String)
    (db : FinancialDB) :
    (clear_transaction now tid db).2 = db ∨
    ∃ t, db.transactions.find? tid = some t ∧ t.status = .pending ∧
      (clear_transaction now tid db).2 =
        { db with
          accounts := ((db.accounts.mutKey t.from_account_id
            (fun u => { u with balance := u.balance - t.amount })).mutKey
            t.to_account_id
            (fun u => { u with balance := u.balance + t.amount })),
          transactions := (db.transactions.mutKey tid
            (fun u => { u with status := .cleared,
                               processed_at := some now })) } := by
  rcases h : db.transactions.find? tid with _ | t
  · left
    simp [clear_transaction, getTransactionInternal, h]
  · by_cases hs : t.status = .pending
    · rcases hf : db.accounts.find? t.from_account_id with _ | fa
      · left
        simp [clear_transaction, getTransactionInternal,
          getAccountInternal, h, hs, hf]
      · rcases hta : db.accounts.find? t.to_account_id with _ | ta
        · left
          simp [clear_transaction, getTransactionInternal,
            getAccountInternal, h, hs, hf, hta]
        · right
          refine ⟨t, rfl, hs, ?_⟩
          simp [clear_transaction, getTransactionInternal,
            getAccountInternal, h, hs, hf, hta]
    · left
      simp [clear_transaction, getTransactionInternal, h, hs]

/-- Case analysis of `create_transaction`: either it fails and hands back
the store it received, or it differs exactly by the insertion of the new
pending transaction under the fresh id. -/
theorem create_transaction_cases (fid : String) (now : Nat)
    (fromId toId : String) (a : Rat) (c : String) (db : FinancialDB) :
    (create_transaction fid now fromId toId a c db).2 = db ∨
    ∃ tx, tx.status = .pending ∧
      (create_transaction fid now fromId toId a c db).2 =
        { db with transactions := (db.transactions.setKey fid tx) } := by
  rcases hf : getAccountInternal db fromId with e | fa
  · left
    simp [create_transaction, hf]
  · rcases ht : getAccountInternal db toId with e | ta
    · left
      simp [create_transaction, hf, ht]
    · by_cases hb : fa.balance < a
      · left
        simp [create_transaction, hf, ht, hb]
      · rcases hmk : mkTransaction fid fromId toId a c .pending none none
            now none none with e | tx
        · left
          simp [create_transaction, hf, ht, hb, hmk]
        · right
          refine ⟨tx, ?_, ?_⟩
          · unfold mkTransaction at hmk
            split at hmk
            · cases hmk
            · split at hmk
              · cases hmk
              · cases hmk
                rfl
          · simp [create_transaction, hf, ht, hb, hmk]

/-- Case analysis of `flag_transaction_for_fraud`: failure hands back the
received store; success differs exactly by the in-place status mutation. -/
theorem flag_transaction_cases (tid : String) (db : FinancialDB) :
    (flag_transaction_for_fraud tid db).2 = db ∨
    (flag_transaction_for_fraud tid db).2 =
      { db with transactions := (db.transactions.mutKey tid
          (fun u => { u with status := .flagged })) } := by
  rcases h : db.transactions.find? tid with _ | t
  · left
    simp [flag_transaction_for_fraud, getTransactionInternal, h]
  · right
    simp [flag_transaction_for_fraud, getTransactionInternal, h]

/-- Case analysis of `set_fraud_score`: failure hands back the received
store; success differs exactly by the in-place score mutation. -/
theorem set_fraud_score_cases (tid : String) (s : Rat) (db : FinancialDB) :
    (set_fraud_score tid s db).2 = db ∨
    (set_fraud_score tid s db).2 =
      { db with transactions := (db.transactions.mutKey tid
          (fun u => { u with fraud_score := some s })) } := by
  by_cases hr : ¬(0 ≤ s ∧ s ≤ 1)
  · left
    simp [set_fraud_score, hr]
  · rcases h : db.transactions.find? tid with _ | t
    · left
      simp [set_fraud_score, getTransactionInternal, h, hr]
    · right
      simp [set_fraud_score, getTransactionInternal, h, hr]

/-- Case analysis of `link_swift_message_to_transaction`: failure hands
back the received store; success differs exactly by the in-place
message-reference mutation. -/
theorem link_swift_message_cases (tid mid : String) (db : FinancialDB) :
    (link_swift_message_to_transaction tid mid db).2 = db ∨
    (link_swift_message_to_transaction tid mid db).2 =
      { db with transactions := (db.transactions.mutKey tid
          (fun u => { u with swift_message_id := some mid })) } := by
  rcases h : db.transactions.find? tid with _ | t
  · left
    simp [link_swift_message_to_transaction, getTransactionInternal, h]
  · rcases hm : db.swift_messages.find? mid with _ | m
    · left
      simp [link_swift_message_to_transaction, getTransactionInternal,
        get_swift_message, h, hm]
    · right
      simp [link_swift_message_to_transaction, getTransactionInternal,
        get_swift_message, h, hm]

/-- Lemma: `create_swift_message` always succeeds and differs exactly by the
insertion of the new message under the fresh id. -/
theorem create_swift_message_result (fid : String) (now : Nat)
    (sb rb mt ct : String) (db : FinancialDB) :
    (create_swift_message fid now sb rb mt ct db).2 =
      { db with swift_messages := (db.swift_messages.setKey fid
          { message_id := fid, sender_bic := sb, receiver_bic := rb,
            message_type := mt, content := ct, created_at := now,
            processed := false }) } := rfl

/-- Claim C6: every read-classified operation (customer details, account
balance, transaction status, customer accounts, account transactions,
SWIFT message lookup, and the statistics query) returns the store exactly
as it received it, for every input, whether it succeeds or fails. -/
theorem reads_leave_store_unchanged (db : FinancialDB)
    (customer_id account_id transaction_id customer_id2 account_id2
     message_id : String) :
    (get_customer_details customer_id db).2 = db ∧
    (get_account_balance account_id db).2 = db ∧
    (get_transaction_status transaction_id db).2 = db ∧
    (get_customer_accounts customer_id2 db).2 = db ∧
    (get_account_transactions account_id2 db).2 = db ∧
    (get_swift_message message_id db).2 = db ∧
    (get_statistics_tool db).2 = db :=
  ⟨rfl, rfl, rfl, rfl, rfl, rfl, rfl⟩

/-- Claim C4: `clear_transaction` fails with NotFound when the id is absent,
fails with InvalidState when the resolved transaction is not pending, and
every failing call returns the store exactly as it received it. -/
theorem clear_transaction_failure_spec (db : FinancialDB) (now : Nat)
    (transaction_id : String) :
    (db.transactions.find? transaction_id = none →
      clear_transaction now transaction_id db =
        (.error (.notFound "Transaction" transaction_id), db)) ∧
    (∀ t, db.transactions.find? transaction_id = some t →
      t.status ≠ .pending →
      clear_transaction now transaction_id db =
        (.error (.invalidState transaction_id), db)) ∧
    (∀ e, (clear_transaction now transaction_id db).1 = .error e →
      (clear_transaction now transaction_id db).2 = db) := by
  refine ⟨?_, ?_, ?_⟩
  · intro h
    simp [clear_transaction, getTransactionInternal, h]
  · intro t ht hs
    simp [clear_transaction, getTransactionInternal, ht, hs]
  · intro e
    unfold clear_transaction getTransactionInternal getAccountInternal
    rcases h : db.transactions.find? transaction_id with _ | t
    · simp
    · simp only []
      by_cases hs : t.status = .pending
      · simp only [hs]
        rcases hf : db.accounts.find? t.from_account_id with _ | fa
        · simp
        · rcases hta : db.accounts.find? t.to_account_id with _ | ta
          · simp
          · simp
      · simp [hs]

/-- Witness for claim C4 at concrete inputs: clearing a missing id and
re-clearing an already-cleared transaction both fail and leave the fixture
store untouched. -/
theorem clear_transaction_failure_spec_witness :
    clear_transaction 9 "missing" exClearedDB =
      (.error (.notFound "Transaction" "missing"), exClearedDB) ∧
    clear_transaction 9 "tx_1" exClearedDB =
      (.error (.invalidState "tx_1"), exClearedDB) :=
  ⟨(clear_transaction_failure_spec exClearedDB 9 "missing").1 rfl,
   (clear_transaction_failure_spec exClearedDB 9 "tx_1").2.1 exTxCleared rfl
     (by decide)⟩

/-- Claim C8: clearing a pending self-transfer (source id equals
destination id) succeeds and returns the aliased account record exactly
unchanged: the in-place decrement and increment act on the same stored
object and cancel. -/
theorem clear_self_transfer_balance_unchanged (db : FinancialDB) (now : Nat)
    (transaction_id : String) (t : Transaction) (a : Account)
    (ht : db.transactions.find? transaction_id = some t)
    (hp : t.status = .pending)
    (hself : t.from_account_id = t.to_account_id)
    (ha : db.accounts.find? t.from_account_id = some a) :
    (clear_transaction now transaction_id db).1 =
      .ok { t with status := .cleared, processed_at := some now } ∧
    (clear_transaction now transaction_id db).2.accounts.find?
      t.from_account_id = some a := by
  have ha' : db.accounts.find? t.to_account_id = some a := hself ▸ ha
  have hacc : (clear_transaction now transaction_id db).2.accounts =
      (db.accounts.mutKey t.from_account_id
        (fun u => { u with balance := u.balance - t.amount })).mutKey
        t.to_account_id
        (fun u => { u with balance := u.balance + t.amount }) := by
    simp [clear_transaction, getTransactionInternal, getAccountInternal,
      ht, hp, ha, ha']
  constructor
  · simp [clear_transaction, getTransactionInternal, getAccountInternal,
      ht, hp, ha, ha']
  · rw [hacc, hself, StoreMap.mutKey_mutKey, StoreMap.find_mutKey_self,
      ha']
    simp [Function.comp]

/-- Witness for claim C8: clearing the fixture self-transfer of amount 100
leaves `acc_1` stored exactly as before. -/
theorem clear_self_transfer_balance_unchanged_witness :
    (clear_transaction 3 "tx_s" exSelfDB).1 =
      .ok { exTxSelf with status := .cleared, processed_at := some 3 } ∧
    (clear_transaction 3 "tx_s" exSelfDB).2.accounts.find? "acc_1" =
      some exAccount1 :=
  clear_self_transfer_balance_unchanged exSelfDB 3 "tx_s" exTxSelf
    exAccount1 rfl rfl rfl rfl

/-- Claim C9: `flag_transaction_for_fraud` succeeds on every transaction id
present in the store regardless of status, sets exactly the status field of
exactly that transaction to flagged while every other mapping is untouched,
and calling it twice leaves the same store as calling it once. -/
theorem flag_transaction_total_and_idempotent (db : FinancialDB)
    (transaction_id : String) (t : Transaction)
    (ht : db.transactions.find? transaction_id = some t) :
    flag_transaction_for_fraud transaction_id db =
      (.ok { t with status := .flagged },
       { db with transactions := (db.transactions.mutKey transaction_id
           (fun u => { u with status := .flagged })) }) ∧
    (flag_transaction_for_fraud transaction_id db).2.customers =
      db.customers ∧
    (flag_transaction_for_fraud transaction_id db).2.accounts =
      db.accounts ∧
    (flag_transaction_for_fraud transaction_id db).2.swift_messages =
      db.swift_messages ∧
    (flag_transaction_for_fraud transaction_id
        (flag_transaction_for_fraud transaction_id db).2).2 =
      (flag_transaction_for_fraud transaction_id db).2 := by
  have h1 : flag_transaction_for_fraud transaction_id db =
      (.ok { t with status := .flagged },
       { db with transactions := (db.transactions.mutKey transaction_id
           (fun u => { u with status := .flagged })) }) := by
    simp [flag_transaction_for_fraud, getTransactionInternal, ht]
  refine ⟨h1, by rw [h1], by rw [h1], by rw [h1], ?_⟩
  rw [h1]
  have h2 : (db.transactions.mutKey transaction_id
      (fun u => { u with status := .flagged })).find? transaction_id =
      some { t with status := .flagged } := by
    rw [StoreMap.find_mutKey_self, ht]
    rfl
  simp only [flag_transaction_for_fraud, getTransactionInternal, h2]
  rw [StoreMap.mutKey_mutKey]
  have hcomp : db.transactions.mutKey transaction_id
      ((fun u : Transaction => { u with status := TxStatus.flagged }) ∘
        (fun u => { u with status := TxStatus.flagged })) =
      db.transactions.mutKey transaction_id
        (fun u => { u with status := TxStatus.flagged }) :=
    StoreMap.mutKey_congr _ _ _ _ (fun a => rfl)
  rw [hcomp]

/-- Witness for claim C9: flagging the fixture cleared transaction (status
not pending) succeeds and is idempotent on the store. -/
theorem flag_transaction_total_and_idempotent_witness :
    flag_transaction_for_fraud "tx_1" exClearedDB =
      (.ok { exTxCleared with status := .flagged },
       { exClearedDB with transactions := (exClearedDB.transactions.mutKey
           "tx_1" (fun u => { u with status := .flagged })) }) ∧
    (flag_transaction_for_fraud "tx_1" exClearedDB).2.customers =
      exClearedDB.customers ∧
    (flag_transaction_for_fraud "tx_1" exClearedDB).2.accounts =
      exClearedDB.accounts ∧
    (flag_transaction_for_fraud "tx_1" exClearedDB).2.swift_messages =
      exClearedDB.swift_messages ∧
    (flag_transaction_for_fraud "tx_1"
        (flag_transaction_for_fraud "tx_1" exClearedDB).2).2 =
      (flag_transaction_for_fraud "tx_1" exClearedDB).2 :=
  flag_transaction_total_and_idempotent exClearedDB "tx_1" exTxCleared rfl

/-- Claim C1 as stated is false on a pending self-transfer: `tx_s` is
pending with amount 100 from `acc_1` to `acc_1`, clearing it succeeds, yet
the source balance stays 1000 instead of decreasing by exactly 100. -/
theorem clear_transaction_claim_fails_on_self_transfer :
    (exSelfDB.transactions.find? "tx_s").map Transaction.status =
      some .pending ∧
    (exSelfDB.transactions.find? "tx_s").map Transaction.amount =
      some 100 ∧
    (exSelfDB.transactions.find? "tx_s").map Transaction.from_account_id =
      some "acc_1" ∧
    (exSelfDB.transactions.find? "tx_s").map Transaction.to_account_id =
      some "acc_1" ∧
    (exSelfDB.accounts.find? "acc_1").map Account.balance = some 1000 ∧
    (clear_transaction 3 "tx_s" exSelfDB).1.toBool = true ∧
    ((clear_transaction 3 "tx_s" exSelfDB).2.accounts.find? "acc_1").map
      Account.balance = some 1000 ∧
    (1000 : Rat) ≠ 1000 - 100 := by
  refine ⟨rfl, rfl, rfl, rfl, rfl, rfl, ?_, by norm_num⟩
  norm_num [clear_transaction, getTransactionInternal, getAccountInternal,
    exSelfDB, exDB, exTxSelf, exAccount1, exAccount2, StoreMap.find?,
    StoreMap.mutKey, Except.toBool]

/-- Claim C1 amended (restricted to transactions whose source and
destination ids differ, as the self-transfer counterexample forces):
clearing a pending transaction whose two account ids are distinct and
resolve in the store decreases the source balance by exactly the amount,
increases the destination balance by exactly the amount, keeps the sum of
the two balances unchanged, sets the status to cleared and records a
non-null processed timestamp, both on the returned transaction and in the
store. -/
theorem clear_transaction_conservation (db : FinancialDB) (now : Nat)
    (transaction_id : String) (t : Transaction) (fa ta : Account)
    (ht : db.transactions.find? transaction_id = some t)
    (hp : t.status = .pending)
    (hne : t.from_account_id ≠ t.to_account_id)
    (hfa : db.accounts.find? t.from_account_id = some fa)
    (hta : db.accounts.find? t.to_account_id = some ta) :
    (clear_transaction now transaction_id db).1 =
      .ok { t with status := .cleared, processed_at := some now } ∧
    (clear_transaction now transaction_id db).2.accounts.find?
      t.from_account_id = some { fa with balance := fa.balance - t.amount } ∧
    (clear_transaction now transaction_id db).2.accounts.find?
      t.to_account_id = some { ta with balance := ta.balance + t.amount } ∧
    (fa.balance - t.amount) + (ta.balance + t.amount) =
      fa.balance + ta.balance ∧
    (clear_transaction now transaction_id db).2.transactions.find?
      transaction_id =
      some { t with status := .cleared, processed_at := some now } := by
  have hacc : (clear_transaction now transaction_id db).2.accounts =
      (db.accounts.mutKey t.from_account_id
        (fun u => { u with balance := u.balance - t.amount })).mutKey
        t.to_account_id
        (fun u => { u with balance := u.balance + t.amount }) := by
    simp [clear_transaction, getTransactionInternal, getAccountInternal,
      ht, hp, hfa, hta]
  have htx : (clear_transaction now transaction_id db).2.transactions =
      db.transactions.mutKey transaction_id
        (fun u => { u with status := .cleared, processed_at := some now }) := by
    simp [clear_transaction, getTransactionInternal, getAccountInternal,
      ht, hp, hfa, hta]
  refine ⟨?_, ?_, ?_, by ring, ?_⟩
  · simp [clear_transaction, getTransactionInternal, getAccountInternal,
      ht, hp, hfa, hta]
  · rw [hacc, StoreMap.find_mutKey_other _ _ _ _ (Ne.symm hne),
      StoreMap.find_mutKey_self, hfa]
    rfl
  · rw [hacc, StoreMap.find_mutKey_self,
      StoreMap.find_mutKey_other _ _ _ _ hne, hta]
    rfl
  · rw [htx, StoreMap.find_mutKey_self, ht]
    rfl

/-- Witness for the amended claim C1: clearing the fixture pending
transaction of amount 100 between distinct accounts `acc_1` and `acc_2`. -/
theorem clear_transaction_conservation_witness :
    (clear_transaction 2 "tx_1" exPendingDB).1 =
      .ok { exTxPending with status := .cleared, processed_at := some 2 } ∧
    (clear_transaction 2 "tx_1" exPendingDB).2.accounts.find? "acc_1" =
      some { exAccount1 with balance := exAccount1.balance - 100 } ∧
    (clear_transaction 2 "tx_1" exPendingDB).2.accounts.find? "acc_2" =
      some { exAccount2 with balance := exAccount2.balance + 100 } ∧
    (exAccount1.balance - 100) + (exAccount2.balance + 100) =
      exAccount1.balance + exAccount2.balance ∧
    (clear_transaction 2 "tx_1" exPendingDB).2.transactions.find? "tx_1" =
      some { exTxPending with status := .cleared, processed_at := some 2 } :=
  clear_transaction_conservation exPendingDB 2 "tx_1" exTxPending
    exAccount1 exAccount2 rfl rfl (by decide) rfl rfl

/-- Claim C3 as stated is false: `tx_1` is cleared in the fixture store,
yet `flag_transaction_for_fraud` succeeds on it and moves its status from
cleared to flagged, so a cleared transaction does change status again. -/
theorem status_claim_fails_on_flagging_cleared :
    (exClearedDB.transactions.find? "tx_1").map Transaction.status =
      some .cleared ∧
    (flag_transaction_for_fraud "tx_1" exClearedDB).1.toBool = true ∧
    ((flag_transaction_for_fraud "tx_1"
        exClearedDB).2.transactions.find? "tx_1").map Transaction.status =
      some .flagged ∧
    TxStatus.cleared ≠ TxStatus.pending := by
  refine ⟨rfl, rfl, rfl, by decide⟩

/-- Claim C3 amended (the counterexample forces admitting the unguarded
fraud-flag transition from any status): across every operation, a stored
transaction's status either stays the same, moves pending to cleared (the
guarded clear), or moves to flagged (the unguarded flag, callable from any
status); in particular it never returns to pending and never becomes
rejected. -/
theorem tx_status_transitions (op : Op) (db : FinancialDB)
    (tid : String) (t t' : Transaction)
    (hfresh : ∀ fid now fromId toId a c,
      op = .createTransaction fid now fromId toId a c →
      db.transactions.containsKey fid = false)
    (ht : db.transactions.find? tid = some t)
    (ht' : (applyOp op db).2.transactions.find? tid = some t') :
    t'.status = t.status ∨
    (t.status = .pending ∧ t'.status = .cleared) ∨
    t'.status = .flagged := by
  cases op with
  | createTransaction fid now fromId toId a c =>
    have hf : db.transactions.containsKey fid = false :=
      hfresh fid now fromId toId a c rfl
    have hne : fid ≠ tid := by
      intro h
      subst h
      have hmem := (StoreMap.containsKey_iff_find db.transactions fid).mpr
        ⟨t, ht⟩
      rw [hf] at hmem
      cases hmem
    left
    have hsame : (applyOp (.createTransaction fid now fromId toId a c)
        db).2.transactions.find? tid = some t := by
      rcases create_transaction_cases fid now fromId toId a c db with
        h | ⟨tx, _, h⟩
      · simp only [applyOp]
        rw [h, ht]
      · simp only [applyOp]
        rw [h]
        simp only []
        rw [StoreMap.find_setKey_other _ _ _ _ hne, ht]
    rw [hsame] at ht'
    cases ht'
    rfl
  | clearTransaction now ctid =>
    rcases clear_transaction_cases now ctid db with h | ⟨tc, htc, hs, h⟩
    · left
      simp only [applyOp] at ht'
      rw [h, ht] at ht'
      cases ht'
      rfl
    · by_cases he : ctid = tid
      · subst he
        rw [htc] at ht
        cases ht
        simp only [applyOp] at ht'
        rw [h] at ht'
        simp only [] at ht'
        rw [StoreMap.find_mutKey_self, htc] at ht'
        cases ht'
        right
        left
        exact ⟨hs, rfl⟩
      · left
        simp only [applyOp] at ht'
        rw [h] at ht'
        simp only [] at ht'
        rw [StoreMap.find_mutKey_other _ _ _ _ he, ht] at ht'
        cases ht'
        rfl
  | flagTransactionForFraud ftid =>
    rcases flag_transaction_cases ftid db with h | h
    · left
      simp only [applyOp] at ht'
      rw [h, ht] at ht'
      cases ht'
      rfl
    · by_cases he : ftid = tid
      · subst he
        simp only [applyOp] at ht'
        rw [h] at ht'
        simp only [] at ht'
        rw [StoreMap.find_mutKey_self, ht] at ht'
        cases ht'
        right
        right
        rfl
      · left
        simp only [applyOp] at ht'
        rw [h] at ht'
        simp only [] at ht'
        rw [StoreMap.find_mutKey_other _ _ _ _ he, ht] at ht'
        cases ht'
        rfl
  | setFraudScore stid s =>
    left
    rcases set_fraud_score_cases stid s db with h | h
    · simp only [applyOp] at ht'
      rw [h, ht] at ht'
      cases ht'
      rfl
    · by_cases he : stid = tid
      · subst he
        simp only [applyOp] at ht'
        rw [h] at ht'
        simp only [] at ht'
        rw [StoreMap.find_mutKey_self, ht] at ht'
        cases ht'
        rfl
      · simp only [applyOp] at ht'
        rw [h] at ht'
        simp only [] at ht'
        rw [StoreMap.find_mutKey_other _ _ _ _ he, ht] at ht'
        cases ht'
        rfl
  | linkSwiftMessageToTransaction ltid mid =>
    left
    rcases link_swift_message_cases ltid mid db with h | h
    · simp only [applyOp] at ht'
      rw [h, ht] at ht'
      cases ht'
      rfl
    · by_cases he : ltid = tid
      · subst he
        simp only [applyOp] at ht'
        rw [h] at ht'
        simp only [] at ht'
        rw [StoreMap.find_mutKey_self, ht] at ht'
        cases ht'
        rfl
      · simp only [applyOp] at ht'
        rw [h] at ht'
        simp only [] at ht'
        rw [StoreMap.find_mutKey_other _ _ _ _ he, ht] at ht'
        cases ht'
        rfl
  | createSwiftMessage fid now sb rb mt ct =>
    left
    simp only [applyOp, create_swift_message] at ht'
    rw [ht] at ht'
    cases ht'
    rfl
  | getCustomerDetails cid =>
    left
    simp only [applyOp, get_customer_details] at ht'
    rw [ht] at ht'
    cases ht'
    rfl
  | getAccountBalance aid =>
    left
    simp only [applyOp, get_account_balance] at ht'
    rw [ht] at ht'
    cases ht'
    rfl
  | getTransactionStatus gtid =>
    left
    simp only [applyOp, get_transaction_status] at ht'
    rw [ht] at ht'
    cases ht'
    rfl
  | getCustomerAccounts cid =>
    left
    simp only [applyOp, get_customer_accounts] at ht'
    rw [ht] at ht'
    cases ht'
    rfl
  | getAccountTransactions aid =>
    left
    simp only [applyOp, get_account_transactions] at ht'
    rw [ht] at ht'
    cases ht'
    rfl
  | getSwiftMessage mid =>
    left
    simp only [applyOp, get_swift_message] at ht'
    rw [ht] at ht'
    cases ht'
    rfl
  | getStatistics =>
    left
    simp only [applyOp, get_statistics_tool] at ht'
    rw [ht] at ht'
    cases ht'
    rfl

/-- Witness for the amended claim C3: flagging the fixture cleared
transaction takes the allowed transition to flagged. -/
theorem tx_status_transitions_witness :
    ({ exTxCleared with status := TxStatus.flagged } : Transaction).status =
      exTxCleared.status ∨
    (exTxCleared.status = .pending ∧
      ({ exTxCleared with status := TxStatus.flagged } :
        Transaction).status = .cleared) ∨
    ({ exTxCleared with status := TxStatus.flagged } :
      Transaction).status = .flagged :=
  tx_status_transitions (.flagTransactionForFraud "tx_1") exClearedDB
    "tx_1" exTxCleared { exTxCleared with status := TxStatus.flagged }
    (by intro fid now fromId toId a c h; cases h) rfl rfl

/-- Claim C5 as stated is false for non-positive amounts: both fixture
accounts are present and `acc_1` has balance 1000 which is greater than or
equal to the requested amount 0, yet `create_transaction` with amount 0
does not insert a pending transaction; the pydantic amount validator
rejects the construction and the store is handed back unchanged. -/
theorem create_claim_fails_on_zero_amount :
    (exDB.accounts.find? "acc_1").map Account.balance = some 1000 ∧
    (exDB.accounts.find? "acc_2").map Account.balance = some 500 ∧
    ((0 : Rat) ≤ 1000) ∧
    create_transaction "tx_z" 1 "acc_1" "acc_2" 0 "USD" exDB =
      (.error (.invalidArgument "Transaction amount must be positive"),
       exDB) := by
  refine ⟨rfl, rfl, by norm_num, ?_⟩
  have h1 : ¬((1000 : Rat) < 0) := by norm_num
  have h2 : ((0 : Rat) ≤ 0) := by norm_num
  simp [create_transaction, getAccountInternal, mkTransaction, exDB,
    exAccount1, exAccount2, StoreMap.find?, h1, h2]

/-- Claim C5 amended (the zero-amount counterexample forces adding the
data-model precondition amount strictly positive to the success half):
with both accounts present, `create_transaction` fails with
InsufficientFunds exactly when the source balance is below the amount and
hands back the unchanged store, and with sufficient balance and a strictly
positive amount it returns a fresh pending transaction, inserts exactly it
under the fresh id, and mutates no account balance. -/
theorem create_transaction_funds_spec (db : FinancialDB) (fid : String)
    (now : Nat) (fromId toId : String) (amount : Rat) (c : String)
    (fa ta : Account)
    (hfa : db.accounts.find? fromId = some fa)
    (hta : db.accounts.find? toId = some ta) :
    (fa.balance < amount →
      create_transaction fid now fromId toId amount c db =
        (.error .insufficientFunds, db)) ∧
    (amount ≤ fa.balance → 0 < amount →
      create_transaction fid now fromId toId amount c db =
        (.ok { transaction_id := fid, from_account_id := fromId,
               to_account_id := toId, amount := amount, currency := c,
               status := .pending, swift_message_id := none,
               fraud_score := none, created_at := now,
               processed_at := none, description := none },
         { db with transactions := (db.transactions.setKey fid
             { transaction_id := fid, from_account_id := fromId,
               to_account_id := toId, amount := amount, currency := c,
               status := .pending, swift_message_id := none,
               fraud_score := none, created_at := now,
               processed_at := none, description := none }) })) := by
  constructor
  · intro hlt
    simp [create_transaction, getAccountInternal, hfa, hta, hlt]
  · intro hge hpos
    simp [create_transaction, getAccountInternal, hfa, hta,
      not_lt.mpr hge, mkTransaction, not_le.mpr hpos]

/-- Witness for the amended claim C5: amount 2000 exceeds the 1000 balance
of `acc_1` and fails leaving the fixture store unchanged; amount 100 is
covered and inserts exactly the fixture pending transaction. -/
theorem create_transaction_funds_spec_witness :
    create_transaction "tx_n" 1 "acc_1" "acc_2" 2000 "USD" exDB =
      (.error .insufficientFunds, exDB) ∧
    create_transaction "tx_1" 1 "acc_1" "acc_2" 100 "USD" exDB =
      (.ok exTxPending,
       { exDB with transactions := (exDB.transactions.setKey "tx_1"
           exTxPending) }) :=
  ⟨(create_transaction_funds_spec exDB "tx_n" 1 "acc_1" "acc_2" 2000 "USD"
      exAccount1 exAccount2 rfl rfl).1 (by norm_num [exAccount1]),
   (create_transaction_funds_spec exDB "tx_1" 1 "acc_1" "acc_2" 100 "USD"
      exAccount1 exAccount2 rfl rfl).2 (by norm_num [exAccount1])
     (by norm_num)⟩

/-- First step of the C2 counterexample run: create a pending transfer of
600 out of `acc_1` (balance 1000). -/
def cexOp1 : Op := .createTransaction "t1" 1 "acc_1" "acc_2" 600 "USD"

/-- Second step: create a second pending transfer of 600 out of `acc_1`;
no funds were reserved by the first, so the check still passes. -/
def cexOp2 : Op := .createTransaction "t2" 2 "acc_1" "acc_2" 600 "USD"

/-- Third step: clear the first transfer. -/
def cexOp3 : Op := .clearTransaction 3 "t1"

/-- Fourth step: clear the second transfer; no re-check happens. -/
def cexOp4 : Op := .clearTransaction 4 "t2"

/-- Store after the first step. -/
def cexDB1 : FinancialDB := (applyOp cexOp1 exDB).2

/-- Store after the second step. -/
def cexDB2 : FinancialDB := (applyOp cexOp2 cexDB1).2

/-- Store after the third step. -/
def cexDB3 : FinancialDB := (applyOp cexOp3 cexDB2).2

/-- Store after the fourth step. -/
def cexDB4 : FinancialDB := (applyOp cexOp4 cexDB3).2

/-- Claim C2 as stated is false: starting from the fixture store whose two
accounts hold 1000 and 500 (all non-negative), the four-step run
create/create/clear/clear with amount 600 succeeds at every step and
leaves `acc_1` at balance -200, which is negative: `clear_transaction`
never re-checks funds. -/
theorem balance_invariant_fails_on_double_clear :
    exDB.accounts.size = 2 ∧
    (exDB.accounts.find? "acc_1").map Account.balance = some 1000 ∧
    (exDB.accounts.find? "acc_2").map Account.balance = some 500 ∧
    ((0 : Rat) ≤ 1000) ∧ ((0 : Rat) ≤ 500) ∧
    (applyOp cexOp1 exDB).1 = true ∧
    (applyOp cexOp2 cexDB1).1 = true ∧
    (applyOp cexOp3 cexDB2).1 = true ∧
    (applyOp cexOp4 cexDB3).1 = true ∧
    (cexDB4.accounts.find? "acc_1").map Account.balance = some (-200) ∧
    ((-200 : Rat) < 0) := by
  have hlt : ¬((1000 : Rat) < 600) := by norm_num
  have hlt2 : ¬((1000 : Rat) ≤ 0) := by norm_num
  have hle : ¬((600 : Rat) ≤ 0) := by norm_num
  refine ⟨rfl, rfl, rfl, by norm_num, by norm_num, ?_, ?_, ?_, ?_, ?_,
    by norm_num⟩
  · simp [applyOp, cexOp1, create_transaction, getAccountInternal,
      mkTransaction, exDB, exAccount1, exAccount2, StoreMap.find?, hlt,
      hle, Except.toBool]
  · simp [applyOp, cexOp1, cexOp2, cexDB1, create_transaction,
      getAccountInternal, mkTransaction, exDB, exAccount1, exAccount2,
      StoreMap.find?, StoreMap.setKey, StoreMap.containsKey, hlt, hle,
      Except.toBool]
  · simp [applyOp, cexOp1, cexOp2, cexOp3, cexDB1, cexDB2,
      create_transaction, clear_transaction, getAccountInternal,
      getTransactionInternal, mkTransaction, exDB, exAccount1, exAccount2,
      StoreMap.find?, StoreMap.setKey, StoreMap.containsKey,
      StoreMap.mutKey, hlt, hle, Except.toBool]
  · simp [applyOp, cexOp1, cexOp2, cexOp3, cexOp4, cexDB1, cexDB2, cexDB3,
      create_transaction, clear_transaction, getAccountInternal,
      getTransactionInternal, mkTransaction, exDB, exAccount1, exAccount2,
      StoreMap.find?, StoreMap.setKey, StoreMap.containsKey,
      StoreMap.mutKey, hlt, hle, Except.toBool]
  · simp [applyOp, cexOp1, cexOp2, cexOp3, cexOp4, cexDB1, cexDB2, cexDB3,
      cexDB4, create_transaction, clear_transaction, getAccountInternal,
      getTransactionInternal, mkTransaction, exDB, exAccount1, exAccount2,
      StoreMap.find?, StoreMap.setKey, StoreMap.containsKey,
      StoreMap.mutKey, hlt, hle, Except.toBool]
    norm_num

/-- Claim C2 amended (the double-clear counterexample forces excepting the
unguarded clear): starting from a store with all balances non-negative and
all stored amounts positive, every successful or failing operation leaves
all balances non-negative, except that `clear_transaction` is only covered
when the resolved source account's balance is at least the transaction
amount at clear time - without that proviso a clear may drive the source
balance negative. -/
theorem nonneg_balances_preserved (op : Op) (db : FinancialDB)
    (hnn : NonNegBalances db) (hpos : PositiveAmounts db)
    (hsafe : ∀ now tid t fa, op = .clearTransaction now tid →
      db.transactions.find? tid = some t →
      db.accounts.find? t.from_account_id = some fa →
      t.amount ≤ fa.balance) :
    NonNegBalances (applyOp op db).2 := by
  cases op with
  | clearTransaction now tid =>
    rcases clear_transaction_cases now tid db with h | ⟨t, htc, hs, h⟩
    · intro k a ha
      simp only [applyOp] at ha
      rw [h] at ha
      exact hnn k a ha
    · have hamt : 0 < t.amount := hpos tid t htc
      intro k a ha
      simp only [applyOp] at ha
      rw [h] at ha
      simp only [] at ha
      by_cases hkT : t.to_account_id = k
      · subst hkT
        rw [StoreMap.find_mutKey_self] at ha
        by_cases hTF : t.from_account_id = t.to_account_id
        · rw [← hTF, StoreMap.find_mutKey_self] at ha
          rcases hdb : db.accounts.find? t.from_account_id with _ | fa0
          · rw [hdb] at ha
            cases ha
          · rw [hdb] at ha
            cases ha
            have := hnn _ _ hdb
            simpa using this
        · rw [StoreMap.find_mutKey_other _ _ _ _
            (fun hh => hTF hh)] at ha
          rcases hdb : db.accounts.find? t.to_account_id with _ | ta0
          · rw [hdb] at ha
            cases ha
          · rw [hdb] at ha
            cases ha
            have h0 := hnn _ _ hdb
            simpa using add_nonneg h0 (le_of_lt hamt)
      · rw [StoreMap.find_mutKey_other _ _ _ _ hkT] at ha
        by_cases hkF : t.from_account_id = k
        · subst hkF
          rw [StoreMap.find_mutKey_self] at ha
          rcases hdb : db.accounts.find? t.from_account_id with _ | fa0
          · rw [hdb] at ha
            cases ha
          · rw [hdb] at ha
            cases ha
            have hbound := hsafe now tid t fa0 rfl htc hdb
            simpa using sub_nonneg.mpr hbound
        · rw [StoreMap.find_mutKey_other _ _ _ _ hkF] at ha
          exact hnn k a ha
  | createTransaction fid now fromId toId a c =>
    have hacc : (applyOp (.createTransaction fid now fromId toId a c)
        db).2.accounts = db.accounts := by
      rcases create_transaction_cases fid now fromId toId a c db with
        h | ⟨tx, _, h⟩
      · simp only [applyOp]
        rw [h]
      · simp only [applyOp]
        rw [h]
    intro k acc hk
    rw [hacc] at hk
    exact hnn k acc hk
  | flagTransactionForFraud tid =>
    have hacc : (applyOp (.flagTransactionForFraud tid) db).2.accounts =
        db.accounts := by
      rcases flag_transaction_cases tid db with h | h
      · simp only [applyOp]
        rw [h]
      · simp only [applyOp]
        rw [h]
    intro k acc hk
    rw [hacc] at hk
    exact hnn k acc hk
  | setFraudScore tid s =>
    have hacc : (applyOp (.setFraudScore tid s) db).2.accounts =
        db.accounts := by
      rcases set_fraud_score_cases tid s db with h | h
      · simp only [applyOp]
        rw [h]
      · simp only [applyOp]
        rw [h]
    intro k acc hk
    rw [hacc] at hk
    exact hnn k acc hk
  | linkSwiftMessageToTransaction tid mid =>
    have hacc : (applyOp (.linkSwiftMessageToTransaction tid mid)
        db).2.accounts = db.accounts := by
      rcases link_swift_message_cases tid mid db with h | h
      · simp only [applyOp]
        rw [h]
      · simp only [applyOp]
        rw [h]
    intro k acc hk
    rw [hacc] at hk
    exact hnn k acc hk
  | createSwiftMessage fid now sb rb mt ct =>
    intro k acc hk
    exact hnn k acc hk
  | getCustomerDetails cid =>
    intro k acc hk
    exact hnn k acc hk
  | getAccountBalance aid =>
    intro k acc hk
    exact hnn k acc hk
  | getTransactionStatus tid =>
    intro k acc hk
    exact hnn k acc hk
  | getCustomerAccounts cid =>
    intro k acc hk
    exact hnn k acc hk
  | getAccountTransactions aid =>
    intro k acc hk
    exact hnn k acc hk
  | getSwiftMessage mid =>
    intro k acc hk
    exact hnn k acc hk
  | getStatistics =>
    intro k acc hk
    exact hnn k acc hk

/-- Both fixture balances are non-negative. -/
theorem exPendingDB_nonneg : NonNegBalances exPendingDB := by
  intro k a h
  by_cases h1 : "acc_1" = k
  · simp [exPendingDB, exDB, StoreMap.find?, h1] at h
    rw [← h]
    norm_num [exAccount1]
  · by_cases h2 : "acc_2" = k
    · simp [exPendingDB, exDB, StoreMap.find?, h1, h2] at h
      rw [← h]
      norm_num [exAccount2]
    · simp [exPendingDB, exDB, StoreMap.find?, h1, h2] at h

/-- The only fixture transaction has positive amount. -/
theorem exPendingDB_pos : PositiveAmounts exPendingDB := by
  intro k t h
  by_cases h1 : "tx_1" = k
  · simp [exPendingDB, exDB, StoreMap.find?, h1] at h
    rw [← h]
    norm_num [exTxPending]
  · simp [exPendingDB, exDB, StoreMap.find?, h1] at h

/-- Witness for the amended claim C2: clearing the fixture transaction of
amount 100 against the 1000 balance keeps every balance non-negative. -/
theorem nonneg_balances_preserved_witness :
    NonNegBalances (applyOp (.clearTransaction 2 "tx_1") exPendingDB).2 :=
  nonneg_balances_preserved (.clearTransaction 2 "tx_1") exPendingDB
    exPendingDB_nonneg exPendingDB_pos
    (by
      intro now tid t fa heq htx hfa
      cases heq
      have ht' : t = exTxPending := by
        have : exPendingDB.transactions.find? "tx_1" = some exTxPending :=
          rfl
        rw [this] at htx
        cases htx
        rfl
      subst ht'
      have hfa' : exPendingDB.accounts.find?
          exTxPending.from_account_id = some exAccount1 := rfl
      rw [hfa'] at hfa
      cases hfa
      norm_num [exTxPending, exAccount1])

/-- Claim C7: `link_swift_message_to_transaction` fails with NotFound when
the transaction or the message is absent (the store handed back unchanged),
on success sets exactly the transaction's `swift_message_id` field to the
message id and returns the transaction while the message store is
untouched; and no operation whatsoever mutates a stored SWIFT message (its
processed flag included) - `create_swift_message` only adds a fresh id. -/
theorem link_swift_message_spec (db : FinancialDB) (tid mid : String) :
    (db.transactions.find? tid = none →
      link_swift_message_to_transaction tid mid db =
        (.error (.notFound "Transaction" tid), db)) ∧
    (∀ t, db.transactions.find? tid = some t →
      db.swift_messages.find? mid = none →
      link_swift_message_to_transaction tid mid db =
        (.error (.notFound "SWIFT message" mid), db)) ∧
    (∀ t m, db.transactions.find? tid = some t →
      db.swift_messages.find? mid = some m →
      link_swift_message_to_transaction tid mid db =
        (.ok { t with swift_message_id := some mid },
         { db with transactions := (db.transactions.mutKey tid
             (fun u => { u with swift_message_id := some mid })) })) ∧
    (∀ op db2 mid2 m2,
      (∀ fid now sb rb mt ct,
        op = Op.createSwiftMessage fid now sb rb mt ct →
        db2.swift_messages.containsKey fid = false) →
      db2.swift_messages.find? mid2 = some m2 →
      (applyOp op db2).2.swift_messages.find? mid2 = some m2) := by
  refine ⟨?_, ?_, ?_, ?_⟩
  · intro h
    simp [link_swift_message_to_transaction, getTransactionInternal, h]
  · intro t ht hm
    simp [link_swift_message_to_transaction, getTransactionInternal,
      get_swift_message, ht, hm]
  · intro t m ht hm
    simp [link_swift_message_to_transaction, getTransactionInternal,
      get_swift_message, ht, hm]
  · intro op db2 mid2 m2 hfresh hm
    cases op with
    | createSwiftMessage fid now sb rb mt ct =>
      have hf : db2.swift_messages.containsKey fid = false :=
        hfresh fid now sb rb mt ct rfl
      have hne : fid ≠ mid2 := by
        intro h
        subst h
        have hmem := (StoreMap.containsKey_iff_find
          db2.swift_messages fid).mpr ⟨m2, hm⟩
        rw [hf] at hmem
        cases hmem
      simp only [applyOp, create_swift_message]
      rw [StoreMap.find_setKey_other _ _ _ _ hne]
      exact hm
    | createTransaction fid now fromId toId a c =>
      rcases create_transaction_cases fid now fromId toId a c db2 with
        h | ⟨tx, _, h⟩
      · simp only [applyOp]
        rw [h]
        exact hm
      · simp only [applyOp]
        rw [h]
        exact hm
    | clearTransaction now ctid =>
      rcases clear_transaction_cases now ctid db2 with h | ⟨t, _, _, h⟩
      · simp only [applyOp]
        rw [h]
        exact hm
      · simp only [applyOp]
        rw [h]
        exact hm
    | flagTransactionForFraud ftid =>
      rcases flag_transaction_cases ftid db2 with h | h
      · simp only [applyOp]
        rw [h]
        exact hm
      · simp only [applyOp]
        rw [h]
        exact hm
    | setFraudScore stid s =>
      rcases set_fraud_score_cases stid s db2 with h | h
      · simp only [applyOp]
        rw [h]
        exact hm
      · simp only [applyOp]
        rw [h]
        exact hm
    | linkSwiftMessageToTransaction ltid lmid =>
      rcases link_swift_message_cases ltid lmid db2 with h | h
      · simp only [applyOp]
        rw [h]
        exact hm
      · simp only [applyOp]
        rw [h]
        exact hm
    | getCustomerDetails cid => exact hm
    | getAccountBalance aid => exact hm
    | getTransactionStatus gtid => exact hm
    | getCustomerAccounts cid => exact hm
    | getAccountTransactions aid => exact hm
    | getSwiftMessage gmid => exact hm
    | getStatistics => exact hm

/-- Witness for claim C7: linking the fixture message to the fixture
pending transaction sets only its message reference, and creating a second
message under a fresh id leaves the first message stored unchanged. -/
theorem link_swift_message_spec_witness :
    link_swift_message_to_transaction "tx_1" "msg_1" exLinkDB =
      (.ok { exTxPending with swift_message_id := some "msg_1" },
       { exLinkDB with transactions := (exLinkDB.transactions.mutKey
           "tx_1" (fun u => { u with swift_message_id := some "msg_1" })) }) ∧
    (applyOp (.createSwiftMessage "msg_2" 5 "BANKFR77" "BANKUS33" "MT103"
        "ack") exLinkDB).2.swift_messages.find? "msg_1" = some exMsg1 :=
  ⟨(link_swift_message_spec exLinkDB "tx_1" "msg_1").2.2.1 exTxPending
      exMsg1 rfl rfl,
   (link_swift_message_spec exLinkDB "tx_1" "msg_1").2.2.2
      (.createSwiftMessage "msg_2" 5 "BANKFR77" "BANKUS33" "MT103" "ack")
      exLinkDB "msg_1" exMsg1
      (by intro fid now sb rb mt ct h; cases h; rfl) rfl⟩

/-- Claim C10: the currency argument is never compared with any account
currency. Two `create_transaction` runs differing only in the currency
argument fail with the same errors or both succeed with transactions (and
stores) differing exactly in the recorded currency field; and
`clear_transaction` succeeds or fails identically and produces identical
account balances whatever currency is recorded on the transaction. -/
theorem currency_never_inspected :
    (∀ db fid now fromId toId amt c1 c2,
      (∀ e, (create_transaction fid now fromId toId amt c1 db).1 =
            .error e ↔
            (create_transaction fid now fromId toId amt c2 db).1 =
            .error e) ∧
      (∀ t2, (create_transaction fid now fromId toId amt c2 db).1 =
          .ok t2 →
        create_transaction fid now fromId toId amt c1 db =
          (.ok { t2 with currency := c1 },
           { db with transactions := (db.transactions.setKey fid
               { t2 with currency := c1 }) }))) ∧
    (∀ db now tid c,
      (clear_transaction now tid
          ({ db with transactions := (db.transactions.mutKey tid
              (fun u => { u with currency := c })) })).1.toBool =
        (clear_transaction now tid db).1.toBool ∧
      (clear_transaction now tid
          ({ db with transactions := (db.transactions.mutKey tid
              (fun u => { u with currency := c })) })).2.accounts =
        (clear_transaction now tid db).2.accounts) := by
  constructor
  · intro db fid now fromId toId amt c1 c2
    rcases hf : getAccountInternal db fromId with e | fa
    · constructor
      · intro e'
        simp [create_transaction, hf]
      · intro t2 h
        simp [create_transaction, hf] at h
    · rcases ht : getAccountInternal db toId with e | ta
      · constructor
        · intro e'
          simp [create_transaction, hf, ht]
        · intro t2 h
          simp [create_transaction, hf, ht] at h
      · by_cases hb : fa.balance < amt
        · constructor
          · intro e'
            simp [create_transaction, hf, ht, hb]
          · intro t2 h
            simp [create_transaction, hf, ht, hb] at h
        · by_cases hm : amt ≤ 0
          · constructor
            · intro e'
              simp [create_transaction, hf, ht, hb, mkTransaction, hm]
            · intro t2 h
              simp [create_transaction, hf, ht, hb, mkTransaction, hm]
                at h
          · constructor
            · intro e'
              simp [create_transaction, hf, ht, hb, mkTransaction, hm]
            · intro t2 h
              simp [create_transaction, hf, ht, hb, mkTransaction, hm]
                at h
              rw [← h]
              simp [create_transaction, hf, ht, hb, mkTransaction, hm]
  · intro db now tid c
    rcases hdb : db.transactions.find? tid with _ | t
    · have h2 : (db.transactions.mutKey tid
          (fun u => { u with currency := c })).find? tid = none := by
        rw [StoreMap.find_mutKey_self, hdb]
        rfl
      constructor
      · simp [clear_transaction, getTransactionInternal, hdb, h2]
      · simp [clear_transaction, getTransactionInternal, hdb, h2]
    · have h2 : (db.transactions.mutKey tid
          (fun u => { u with currency := c })).find? tid =
          some { t with currency := c } := by
        rw [StoreMap.find_mutKey_self, hdb]
        rfl
      by_cases hs : t.status = .pending
      · rcases hfa : db.accounts.find? t.from_account_id with _ | fa
        · constructor
          · simp [clear_transaction, getTransactionInternal,
              getAccountInternal, hdb, h2, hs, hfa]
          · simp [clear_transaction, getTransactionInternal,
              getAccountInternal, hdb, h2, hs, hfa]
        · rcases hta : db.accounts.find? t.to_account_id with _ | ta
          · constructor
            · simp [clear_transaction, getTransactionInternal,
                getAccountInternal, hdb, h2, hs, hfa, hta]
            · simp [clear_transaction, getTransactionInternal,
                getAccountInternal, hdb, h2, hs, hfa, hta]
          · constructor
            · simp [clear_transaction, getTransactionInternal,
                getAccountInternal, hdb, h2, hs, hfa, hta,
                Except.toBool]
            · simp [clear_transaction, getTransactionInternal,
                getAccountInternal, hdb, h2, hs, hfa, hta]
      · constructor
        · simp [clear_transaction, getTransactionInternal, hdb, h2, hs]
        · simp [clear_transaction, getTransactionInternal, hdb, h2, hs]

end Financial
